import Mathlib

set_option maxRecDepth 100000

/-!
Verification of the concurrent climate-data retrieval and merge pipeline of the
malaria-prediction dashboards (files non_clinical_malaria_streamlit.py and
backup.py).

The embedding models:
  * the NASA POWER request URL construction and the per-location fetch,
    including its three outcomes: a non-200 HTTP response (absorbed, the
    location yields no record), a network error (the requests.get call raises
    and the exception is re-raised by future.result with no handler), and a
    200 response whose body lacks the sentinel line -END HEADER- (the
    generator passed to next is exhausted, raising StopIteration, likewise
    re-raised unhandled);
  * the batch aggregation over a worker pool (results appended as futures
    complete, None results skipped, concatenated at the end, None returned
    for an empty batch);
  * the left join of the geometry rows against the fetched records keyed by
    (lat, lon), the renaming of the climate columns, the two gap-fill
    policies (zero fill in the active page, column-mean fill in the backup
    variant), the reindex of the feature frame to the column list recorded
    by the trained scaler with fill value 0, and the hand-off to the opaque
    scaler and model.

Coordinates are modelled as strings (the join compares them for exact
equality, and the URL interpolates them verbatim), climate values as
rationals, and a missing value (NaN) as none.
-/

namespace MalariaPipeline

/-! ## Fetch model -/

/-- Fixed base URL of the climate API (module constant BASE_URL). -/
def BASE_URL : String := "https://power.larc.nasa.gov/api/temporal/daily/point"

/-- Fixed parameter list (module constant PARAMETERS). -/
def PARAMETERS : String := "T2M,RH2M,PRECTOTCORR"

/-- Fixed community code (module constant COMMUNITY). -/
def COMMUNITY : String := "RE"

/-- A requested location: the centroid coordinates as interpolated into the
URL and used as the join key. -/
structure Location where
  lat : String
  lon : String
deriving DecidableEq, Repr

/-- The URL built by fetch for one location and one date string
(start and end are both the same date). -/
def requestURL (loc : Location) (dateStr : String) : String :=
  BASE_URL ++ "?parameters=" ++ PARAMETERS ++ "&latitude=" ++ loc.lat ++
    "&longitude=" ++ loc.lon ++ "&start=" ++ dateStr ++ "&end=" ++ dateStr ++
    "&community=" ++ COMMUNITY ++ "&format=CSV"

/-- Outcome of the single GET a fetch call issues: either an HTTP response
(status code and response text split into lines) or a raised network error. -/
inductive HttpResult where
  | response (status : Nat) (lines : List String)
  | networkError
deriving DecidableEq, Repr

/-- The sentinel line marker of the CSV header section. -/
def sentinel : String := "-END HEADER-"

/-- Substring test, modelling the python expression (sub in line). -/
def containsSub (line sub : String) : Bool :=
  (List.range (line.length + 1)).any
    (fun i => sub.toList.isPrefixOf (line.toList.drop i))

/-- Index of the first line containing the sentinel marker, modelling
next(i for i, line in enumerate(lines) if "-END HEADER-" in line); none
models the StopIteration raised when no line matches. -/
def headerEnd (lines : List String) : Option Nat :=
  lines.findIdx? (fun line => containsSub line sentinel)

/-- A parsed CSV data row tagged with the latitude/longitude of the
requesting location (the df with Latitude/Longitude columns assigned). -/
structure TaggedRow where
  loc : Location
  row : String
deriving DecidableEq, Repr

/-- An exception escaping a worker, re-raised by future.result in the
aggregation loop, which has no handler. -/
inductive PyErr where
  | stopIteration
  | requestException
deriving DecidableEq, Repr

/-- The inner fetch function for one location: issues one GET at requestURL
and either returns a tagged data frame (some rows), returns None (non-200,
modelled as ok none), or raises (network error, or missing sentinel line). -/
def fetchOne (resp : String → HttpResult) (dateStr : String) (loc : Location) :
    Except PyErr (Option (List TaggedRow)) :=
  match resp (requestURL loc dateStr) with
  | .networkError => .error .requestException
  | .response status lines =>
    if status = 200 then
      match headerEnd lines with
      | none => .error .stopIteration
      | some i => .ok (some ((lines.drop (i + 1)).map (fun r => ⟨loc, r⟩)))
    else
      .ok none

/-- The aggregation loop: collect the result of every future, skipping None
results; the first exception raised by future.result aborts the loop. -/
def collectResults (resp : String → HttpResult) (dateStr : String) :
    List Location → Except PyErr (List (List TaggedRow))
  | [] => .ok []
  | loc :: rest => do
    let r ← fetchOne resp dateStr loc
    let rs ← collectResults resp dateStr rest
    match r with
    | some df => .ok (df :: rs)
    | none => .ok rs

/-- fetch_nasa_data: fan out one fetch per location, gather the non-None
results, concatenate them (pd.concat), and return None when no location
produced a result. An unhandled worker exception escapes the whole call. -/
def fetch_nasa_data (resp : String → HttpResult) (dateStr : String)
    (locs : List Location) : Except PyErr (Option (List TaggedRow)) :=
  (collectResults resp dateStr locs).map
    (fun results => if results.isEmpty then none else some results.flatten)

/-- The caller branch on the returned value: the df is not None branch
proceeds to the merge, scaling and prediction; the else branch displays the
terminal retrieval-failure message and does nothing else. -/
inductive FetchStageOutcome where
  | proceeded (records : List TaggedRow)
  | fetchFailed (msg : String)
deriving DecidableEq, Repr

/-- The user-visible message of the terminal else branch. -/
def retrievalFailedMsg : String :=
  "❌ Climate data retrieval failed. Please try again later."

/-- The module-level dispatch on the value returned by fetch_nasa_data. -/
def runFetchStage (resp : String → HttpResult) (dateStr : String)
    (locs : List Location) : Except PyErr FetchStageOutcome :=
  (fetch_nasa_data resp dateStr locs).map
    (fun
      | some recs => .proceeded recs
      | none => .fetchFailed retrievalFailedMsg)

/-- The tagged frame of one location when its fetch succeeded with data,
none otherwise. -/
def successFrame (resp : String → HttpResult) (dateStr : String)
    (loc : Location) : Option (List TaggedRow) :=
  match fetchOne resp dateStr loc with
  | .ok (some df) => some df
  | _ => none

/-- The records of the locations whose fetch succeeded, in request order:
the concatenation of the tagged frames of every location whose fetch
returned data. -/
def successRecords (resp : String → HttpResult) (dateStr : String)
    (locs : List Location) : List TaggedRow :=
  (locs.filterMap (successFrame resp dateStr)).flatten

/-! ## Merge model

The merged frame joins the geometry rows against the fetched records on
exact (lat, lon) equality, left join. After the rename the three climate
columns are Rainfall (PRECTOTCORR), LST (T2M) and Relative_H (RH2M); a
per-row value may still be missing (none), either because the row had no
matching fetched record or because the record itself had a gap. -/

/-- One fetched climate record after the column rename; each field may be
missing (NaN). -/
structure ClimateRec where
  rainfall : Option ℚ
  lst : Option ℚ
  relH : Option ℚ
deriving DecidableEq, Repr

/-- One geometry row: its centroid key and its other attributes
(ward name, geometry, and so on), modelled as an attribute list. -/
structure GeomRow where
  lat : String
  lon : String
  attrs : List (String × String)
deriving DecidableEq, Repr

/-- A row of the merged frame: the geometry row plus the matched climate
record, none when the join found no match for the key. -/
structure MergedRow where
  geom : GeomRow
  climate : Option ClimateRec
deriving DecidableEq, Repr

/-- Association-list lookup by key (first match wins, as pandas merge does
when the right keys are unique). -/
def lookupKey {κ α : Type} [DecidableEq κ] (l : List (κ × α)) (k : κ) :
    Option α :=
  (l.find? (fun p => p.1 = k)).map Prod.snd

/-- The right-side rows matching one key. -/
def matchesFor (C : List ((String × String) × ClimateRec))
    (k : String × String) : List ((String × String) × ClimateRec) :=
  C.filter (fun p => p.1 = k)

/-- Left-join expansion of one geometry row: one output row per matching
right row, or a single row with missing climate fields when nothing
matches. -/
def mergeRow (C : List ((String × String) × ClimateRec)) (g : GeomRow) :
    List MergedRow :=
  if (matchesFor C (g.lat, g.lon)).isEmpty then [⟨g, none⟩]
  else (matchesFor C (g.lat, g.lon)).map (fun p => ⟨g, some p.2⟩)

/-- The module-level merge: gdf.merge(df, left_on=[lat, lon],
right_on=[Latitude, Longitude], how=left), keeping the left row order. -/
def leftMerge (G : List GeomRow) (C : List ((String × String) × ClimateRec)) :
    List MergedRow :=
  (G.map (mergeRow C)).flatten

/-! ## Feature pipeline model -/

/-- The three semantic feature columns selected for prediction. -/
def features : List String := ["Rainfall", "LST", "Relative_H"]

/-- The climate fields of a merged row as a feature row: a missing match
leaves all three fields missing (the NaN columns a left join produces). -/
def featRow (m : MergedRow) : ClimateRec :=
  match m.climate with
  | some c => c
  | none => ⟨none, none, none⟩

/-- Zero fill of one feature row (the active page: fillna(0)). -/
def fillZero (r : ClimateRec) : ClimateRec :=
  ⟨some (r.rainfall.getD 0), some (r.lst.getD 0), some (r.relH.getD 0)⟩

/-- Zero fill over the whole feature frame. -/
def fillZeroTable (rs : List ClimateRec) : List ClimateRec :=
  rs.map fillZero

/-- Column mean over the present values; none when every value of the
column is missing (pandas mean skips NaN and is itself NaN on an all-NaN
column, in which case fillna leaves the gaps in place). -/
def colMean (xs : List (Option ℚ)) : Option ℚ :=
  let vs := xs.filterMap id
  if vs.isEmpty then none else some (vs.sum / vs.length)

/-- Fill one possibly-missing value from a possibly-missing fill value. -/
def fillWith (m : Option ℚ) (x : Option ℚ) : Option ℚ :=
  match x with
  | some v => some v
  | none => m

/-- Mean fill over the whole feature frame (the backup variant:
X_pred.fillna(X_pred.mean())). -/
def fillMeanTable (rs : List ClimateRec) : List ClimateRec :=
  let mr := colMean (rs.map (fun r => r.rainfall))
  let ml := colMean (rs.map (fun r => r.lst))
  let mh := colMean (rs.map (fun r => r.relH))
  rs.map (fun r => ⟨fillWith mr r.rainfall, fillWith ml r.lst,
    fillWith mh r.relH⟩)

/-- Whether a feature row has no missing value. -/
def recComplete (r : ClimateRec) : Bool :=
  r.rainfall.isSome && r.lst.isSome && r.relH.isSome

/-- A filled feature row as a labelled column list in the source order
Rainfall, LST, Relative_H. The fields of a filled row are always present,
so getD only extracts the value. -/
def assocOf (r : ClimateRec) : List (String × ℚ) :=
  [("Rainfall", r.rainfall.getD 0), ("LST", r.lst.getD 0),
    ("Relative_H", r.relH.getD 0)]

/-- The reindex of one feature row to the column list the scaler recorded
(X_pred.reindex(columns=scaler.feature_names_in_, fill_value=0)): the
output columns are exactly the expected ones in their order, a column
found in the row keeps its value, an absent one is filled with 0. -/
def align (expected : List String) (row : List (String × ℚ)) :
    List (String × ℚ) :=
  expected.map (fun c => (c, (lookupKey row c).getD 0))

/-- The aligned feature matrix of the active page: zero fill, select the
three feature columns, reindex to the expected columns. -/
def activePipeline (expected : List String) (ms : List MergedRow) :
    List (List (String × ℚ)) :=
  (fillZeroTable (ms.map featRow)).map (fun r => align expected (assocOf r))

/-- The aligned feature matrix of the backup variant: select the three
feature columns, mean fill, reindex to the expected columns. -/
def backupPipeline (expected : List String) (ms : List MergedRow) :
    List (List (String × ℚ)) :=
  (fillMeanTable (ms.map featRow)).map (fun r => align expected (assocOf r))

/-! ## Feature-schema check model

The two variants differ when a required climate column is absent from the
merged frame (the API response shape changed, so the rename never produced
the column). The backup variant tests membership of every feature column
and on failure shows a fixed message and stops; the active page selects the
columns directly, so a missing column raises an uncaught KeyError. In both
cases the stage result below stands for what happens before scaling: ok
means the pipeline goes on to scale and predict. -/

/-- Result of the feature-selection step: proceed to scaling, stop with a
displayed error message, or die on an uncaught exception. -/
inductive StageResult where
  | okProceed
  | stopWithError (msg : String)
  | uncaught (msg : String)
deriving DecidableEq, Repr

/-- The fixed message of the backup variant (it does not name the missing
columns). -/
def backupMissingMsg : String :=
  "❌ Missing required climate features for prediction."

/-- The feature columns absent from the merged frame. -/
def missingFeatures (present : List String) : List String :=
  features.filter (fun f => !(present.contains f))

/-- The KeyError text pandas raises when selected columns are absent. -/
def keyErrorMsg (missing : List String) : String :=
  "KeyError: [" ++ String.intercalate ", " missing ++ "] not in index"

/-- The backup variant check: if all(f in gdf.columns for f in features)
proceed, else st.error with the fixed message and st.stop. -/
def backupFeatureStage (present : List String) : StageResult :=
  if features.all (fun f => present.contains f) then .okProceed
  else .stopWithError backupMissingMsg

/-- The active page selection gdf[[Rainfall, LST, Relative_H]]: raises a
KeyError when any selected column is absent, otherwise proceeds. -/
def activeFeatureStage (present : List String) : StageResult :=
  if (missingFeatures present).isEmpty then .okProceed
  else .uncaught (keyErrorMsg (missingFeatures present))

/-! ## Concrete example inputs -/

/-- A location whose fetch succeeds in the example batches. -/
def goodLoc : Location := ⟨"9.0", "7.0"⟩

/-- A second location used by the example batches. -/
def badLoc : Location := ⟨"10.0", "8.0"⟩

/-- The example date string. -/
def demoDate : String := "20240101"

/-- A well-formed response body: header, sentinel line, one data row. -/
def goodLines : List String :=
  ["-BEGIN HEADER-", "-END HEADER-", "20240101,25.0,60.0,0.5"]

/-- A malformed response body with no sentinel line. -/
def badLines : List String := ["YEAR,T2M,RH2M,PRECTOTCORR"]

/-- Oracle for the C1 counterexample: the first location answers with a
well-formed 200 response, the second with a 200 response that lacks the
sentinel line. -/
def respC1 : String → HttpResult := fun u =>
  if u = requestURL goodLoc demoDate then .response 200 goodLines
  else .response 200 badLines

/-- Oracle where the first location succeeds and every other request gets
an HTTP 500. -/
def respMixed : String → HttpResult := fun u =>
  if u = requestURL goodLoc demoDate then .response 200 goodLines
  else .response 500 []

/-- Oracle modelling a total network outage: every request raises. -/
def respDown : String → HttpResult := fun _ => .networkError

/-- Oracle where every request gets an HTTP 500. -/
def respAll500 : String → HttpResult := fun _ => .response 500 []

/-- Example fetched record for the first location. -/
def recA : ClimateRec := ⟨some 5, some 25, some 60⟩

/-- Example fetched record for the second location. -/
def recB : ClimateRec := ⟨some 0, some 30, some 55⟩

/-- Example geometry rows: two with fetched records, one without. -/
def gRow1 : GeomRow := ⟨"9.0", "7.0", [("wardname", "Ward A")]⟩

/-- Second example geometry row. -/
def gRow2 : GeomRow := ⟨"10.0", "8.0", [("wardname", "Ward B")]⟩

/-- Third example geometry row, with no matching fetched record. -/
def gRow3 : GeomRow := ⟨"11.0", "9.0", [("wardname", "Ward C")]⟩

/-- The example geometry frame. -/
def G0 : List GeomRow := [gRow1, gRow2, gRow3]

/-- The example fetched climate frame keyed by (lat, lon). -/
def C0 : List ((String × String) × ClimateRec) :=
  [(("9.0", "7.0"), recA), (("10.0", "8.0"), recB)]

/-- The example fetched climate frame with its rows arriving in the other
completion order. -/
def C0swapped : List ((String × String) × ClimateRec) :=
  [(("10.0", "8.0"), recB), (("9.0", "7.0"), recA)]

/-- An example expected-column list recorded by the scaler. -/
def expected0 : List String := ["LST", "Relative_H", "Rainfall"]

/-- An example feature row in one input column order. -/
def row0 : List (String × ℚ) :=
  [("Rainfall", 5), ("LST", 25), ("Relative_H", 60)]

/-- The same feature row with its columns permuted. -/
def row0perm : List (String × ℚ) :=
  [("Relative_H", 60), ("LST", 25), ("Rainfall", 5)]

/-- An example merged-frame column list in which LST is absent (the API
response shape changed). -/
def presentNoLST : List String :=
  ["lat", "lon", "wardname", "geometry", "Rainfall", "Relative_H"]

/-- An example complete feature frame (no missing value anywhere). -/
def completeTable : List ClimateRec := [recA, recB]

/-- Example merged rows whose climate values are all present. -/
def mergedComplete : List MergedRow :=
  [⟨gRow1, some recA⟩, ⟨gRow2, some recB⟩]

/-! ## Helper lemmas -/

lemma filter_key_nodup {κ α : Type} [DecidableEq κ] (k : κ) :
    ∀ l : List (κ × α), (l.map Prod.fst).Nodup →
      l.filter (fun p => p.1 = k) =
        (l.find? (fun p => p.1 = k)).elim [] (fun x => [x])
  | [], _ => rfl
  | a :: t, hnd => by
    rw [List.map_cons, List.nodup_cons] at hnd
    obtain ⟨ha, ht⟩ := hnd
    by_cases h : a.1 = k
    · have hft : t.filter (fun p => p.1 = k) = [] := by
        refine List.filter_eq_nil_iff.mpr (fun x hx => ?_)
        simp only [decide_eq_true_eq]
        intro hxk
        exact ha (List.mem_map.mpr ⟨x, hx, by rw [hxk, h]⟩)
      simp [List.filter_cons, List.find?_cons, h, hft]
    · simp only [List.filter_cons, List.find?_cons, h, decide_False,
        if_false, cond_false]
      exact filter_key_nodup k t ht

lemma lookupKey_isSome {κ α : Type} [DecidableEq κ] (l : List (κ × α))
    (k : κ) : (lookupKey l k).isSome = true ↔ k ∈ l.map Prod.fst := by
  unfold lookupKey
  constructor
  · intro h
    obtain ⟨v, hv⟩ := Option.isSome_iff_exists.mp h
    obtain ⟨x, hfind, hx2⟩ := Option.map_eq_some'.mp hv
    exact List.mem_map.mpr ⟨x, List.mem_of_find?_eq_some hfind,
      by simpa using List.find?_some hfind⟩
  · intro hk
    obtain ⟨x, hx, hxk⟩ := List.mem_map.mp hk
    cases hfind : l.find? (fun p => p.1 = k) with
    | none =>
      rw [List.find?_eq_none] at hfind
      exact absurd hxk (by simpa using hfind x hx)
    | some y => simp [hfind]

lemma lookupKey_eq_none {κ α : Type} [DecidableEq κ] (l : List (κ × α))
    (k : κ) : lookupKey l k = none ↔ k ∉ l.map Prod.fst := by
  rw [← Option.not_isSome_iff_eq_none]
  exact not_congr (lookupKey_isSome l k)

lemma lookupKey_eq_some {κ α : Type} [DecidableEq κ] {l : List (κ × α)}
    {k : κ} {v : α} (hnd : (l.map Prod.fst).Nodup) :
    lookupKey l k = some v ↔ (k, v) ∈ l := by
  constructor
  · intro h
    obtain ⟨x, hfind, hx2⟩ := Option.map_eq_some'.mp h
    have hx1 : x.1 = k := by simpa using List.find?_some hfind
    have hmem := List.mem_of_find?_eq_some hfind
    have : x = (k, v) := Prod.ext hx1 hx2
    exact this ▸ hmem
  · intro hmem
    have hfil : (k, v) ∈ l.filter (fun p => p.1 = k) :=
      List.mem_filter.mpr ⟨hmem, by simp⟩
    rw [filter_key_nodup k l hnd] at hfil
    cases hfind : l.find? (fun p => p.1 = k) with
    | none => simp [hfind] at hfil
    | some x =>
      rw [hfind] at hfil
      simp only [Option.elim_some, List.mem_singleton] at hfil
      simp [lookupKey, hfind, ← hfil]

lemma lookupKey_perm {κ α : Type} [DecidableEq κ] {l l' : List (κ × α)}
    (hp : l.Perm l') (hnd : (l.map Prod.fst).Nodup) (k : κ) :
    lookupKey l k = lookupKey l' k := by
  have hnd' : (l'.map Prod.fst).Nodup := ((hp.map Prod.fst).nodup_iff).mp hnd
  cases h : lookupKey l k with
  | none =>
    rw [lookupKey_eq_none] at h
    rw [eq_comm, lookupKey_eq_none]
    exact fun hc => h ((hp.map Prod.fst).mem_iff.mpr hc)
  | some v =>
    rw [eq_comm, lookupKey_eq_some hnd']
    exact hp.mem_iff.mp ((lookupKey_eq_some hnd).mp h)

lemma mergeRow_eq (C : List ((String × String) × ClimateRec)) (g : GeomRow)
    (hnd : (C.map Prod.fst).Nodup) :
    mergeRow C g = [⟨g, lookupKey C (g.lat, g.lon)⟩] := by
  unfold mergeRow matchesFor
  rw [filter_key_nodup (g.lat, g.lon) C hnd]
  cases hfind : C.find? (fun p => p.1 = (g.lat, g.lon)) with
  | none => simp [lookupKey, hfind]
  | some x => simp [lookupKey, hfind]

lemma leftMerge_eq (G : List GeomRow)
    (C : List ((String × String) × ClimateRec))
    (hnd : (C.map Prod.fst).Nodup) :
    leftMerge G C = G.map (fun g => ⟨g, lookupKey C (g.lat, g.lon)⟩) := by
  induction G with
  | nil => rfl
  | cons g t ih =>
    simp only [leftMerge, List.map_cons, List.flatten_cons] at ih ⊢
    rw [mergeRow_eq C g hnd, ih]
    rfl

lemma map_id_of_mem {α : Type} (l : List α) (f : α → α)
    (h : ∀ a ∈ l, f a = a) : l.map f = l := by
  induction l with
  | nil => rfl
  | cons a t ih =>
    simp only [List.map_cons]
    rw [h a (by simp), ih (fun x hx => h x (by simp [hx]))]

lemma fillZero_complete {r : ClimateRec} (h : recComplete r = true) :
    fillZero r = r := by
  cases r with
  | mk a b c => cases a <;> cases b <;> cases c <;>
      simp_all [recComplete, fillZero]

lemma fillZeroTable_id (rs : List ClimateRec)
    (h : ∀ r ∈ rs, recComplete r = true) : fillZeroTable rs = rs :=
  map_id_of_mem rs fillZero (fun r hr => fillZero_complete (h r hr))

lemma fillMeanTable_id (rs : List ClimateRec)
    (h : ∀ r ∈ rs, recComplete r = true) : fillMeanTable rs = rs := by
  simp only [fillMeanTable]
  refine map_id_of_mem rs _ (fun r hr => ?_)
  have hc := h r hr
  cases r with
  | mk a b c => cases a <;> cases b <;> cases c <;>
      simp_all [recComplete, fillWith]

lemma collectResults_ok (resp : String → HttpResult) (d : String) :
    ∀ locs : List Location,
      (∀ loc ∈ locs, ∃ o, fetchOne resp d loc = .ok o) →
      collectResults resp d locs = .ok (locs.filterMap (successFrame resp d))
  | [], _ => rfl
  | loc :: rest, hsafe => by
    obtain ⟨o, ho⟩ := hsafe loc (by simp)
    have hrest := collectResults_ok resp d rest
      (fun l hl => hsafe l (by simp [hl]))
    simp only [collectResults, ho, hrest]
    cases o with
    | none =>
      simp only [List.filterMap_cons, successFrame, ho]
      rfl
    | some df =>
      simp only [List.filterMap_cons, successFrame, ho]
      rfl

lemma fetch_nasa_data_ok (resp : String → HttpResult) (d : String)
    (locs : List Location)
    (hsafe : ∀ loc ∈ locs, ∃ o, fetchOne resp d loc = .ok o) :
    fetch_nasa_data resp d locs =
      .ok (if (locs.filterMap (successFrame resp d)).isEmpty then none
        else some (successRecords resp d locs)) := by
  unfold fetch_nasa_data successRecords
  rw [collectResults_ok resp d locs hsafe]
  rfl

lemma fetch_some_of_success (resp : String → HttpResult) (d : String)
    (locs : List Location)
    (hsafe : ∀ loc ∈ locs, ∃ o, fetchOne resp d loc = .ok o)
    (hsucc : ∃ loc ∈ locs, ∃ df, fetchOne resp d loc = .ok (some df)) :
    fetch_nasa_data resp d locs = .ok (some (successRecords resp d locs)) := by
  rw [fetch_nasa_data_ok resp d locs hsafe]
  obtain ⟨loc, hloc, df, hdf⟩ := hsucc
  have hframe : successFrame resp d loc = some df := by
    simp [successFrame, hdf]
  have hne : locs.filterMap (successFrame resp d) ≠ [] := by
    intro hnil
    have := List.filterMap_eq_nil_iff.mp hnil loc hloc
    rw [hframe] at this
    exact Option.noConfusion this
  rw [if_neg (by simpa [List.isEmpty_iff] using hne)]

lemma fetch_none_of_allfail (resp : String → HttpResult) (d : String)
    (locs : List Location)
    (hall : ∀ loc ∈ locs, fetchOne resp d loc = .ok none) :
    fetch_nasa_data resp d locs = .ok none := by
  rw [fetch_nasa_data_ok resp d locs (fun l hl => ⟨none, hall l hl⟩)]
  have hnil : locs.filterMap (successFrame resp d) = [] :=
    List.filterMap_eq_nil_iff.mpr
      (fun loc hl => by simp [successFrame, hall loc hl])
  rw [hnil]
  rfl

lemma mem_successRecords (resp : String → HttpResult) (d : String)
    (locs : List Location) (loc : Location) (hloc : loc ∈ locs)
    (df : List TaggedRow) (hdf : fetchOne resp d loc = .ok (some df)) :
    ∀ r ∈ df, r ∈ successRecords resp d locs := by
  intro r hr
  have hframe : successFrame resp d loc = some df := by
    simp [successFrame, hdf]
  unfold successRecords
  exact List.mem_flatten.mpr
    ⟨df, List.mem_filterMap.mpr ⟨loc, hloc, hframe⟩, hr⟩

lemma climate_mem_of_leftMerge {G : List GeomRow}
    {C : List ((String × String) × ClimateRec)} {m : MergedRow}
    (hm : m ∈ leftMerge G C) {rec : ClimateRec}
    (hrec : m.climate = some rec) : ∃ k, (k, rec) ∈ C := by
  unfold leftMerge at hm
  obtain ⟨ms, hms, hmem⟩ := List.mem_flatten.mp hm
  obtain ⟨g, hg, hgm⟩ := List.mem_map.mp hms
  subst hgm
  unfold mergeRow at hmem
  split at hmem
  · have : m = ⟨g, none⟩ := by simpa using hmem
    rw [this] at hrec
    exact Option.noConfusion hrec
  · obtain ⟨p, hp, hpm⟩ := List.mem_map.mp hmem
    have hpc : p ∈ C := (List.mem_filter.mp hp).1
    rw [← hpm] at hrec
    simp only at hrec
    refine ⟨p.1, ?_⟩
    have : (p.1, rec) = p := by
      rw [← Option.some_inj.mp hrec]
    rw [this]
    exact hpc

lemma field_grounded {G : List GeomRow}
    {C : List ((String × String) × ClimateRec)} {m : MergedRow}
    (hm : m ∈ leftMerge G C) (x : Option ℚ)
    (hx : x = (featRow m).rainfall ∨ x = (featRow m).lst ∨
      x = (featRow m).relH) :
    x.getD 0 = 0 ∨ ∃ k rec, (k, rec) ∈ C ∧
      (rec.rainfall = some (x.getD 0) ∨ rec.lst = some (x.getD 0) ∨
        rec.relH = some (x.getD 0)) := by
  cases hclim : m.climate with
  | none =>
    left
    have hfr : featRow m = ⟨none, none, none⟩ := by simp [featRow, hclim]
    rcases hx with h | h | h <;> rw [h, hfr] <;> rfl
  | some rec =>
    obtain ⟨k, hk⟩ := climate_mem_of_leftMerge hm hclim
    have hfr : featRow m = rec := by simp [featRow, hclim]
    rw [hfr] at hx
    cases hval : x with
    | none => left; rfl
    | some v =>
      right
      refine ⟨k, rec, hk, ?_⟩
      rcases hx with h | h | h
      · left; rw [← h, hval]; rfl
      · right; left; rw [← h, hval]; rfl
      · right; right; rw [← h, hval]; rfl

/-! ## Claim theorems -/

/-- C1 (counterexample): a batch of two locations in which the first
fetch succeeds with a well-formed 200 response and the second gets a 200
response whose body lacks the sentinel line does NOT return the records of
the first location: the StopIteration raised while searching for the
sentinel is re-raised by future.result and aborts the whole call. -/
theorem fetch_missing_sentinel_aborts :
    fetch_nasa_data respC1 demoDate [goodLoc, badLoc] =
      .error PyErr.stopIteration := rfl

/-- C1 (amended): per-location failure tolerance holds only for the
failure mode the code absorbs, the HTTP non-200 response. For every batch
in which no per-location fetch raises (every outcome is an HTTP response
and every 200 body contains the sentinel line), the batch fetch does not
abort: it returns exactly the concatenated records of the successful
locations, and every record of every successful location is present;
failed locations are simply absent. -/
theorem fetch_nonabort_amended (resp : String → HttpResult) (d : String)
    (locs : List Location)
    (hsafe : ∀ loc ∈ locs, ∃ o, fetchOne resp d loc = .ok o)
    (hsucc : ∃ loc ∈ locs, ∃ df, fetchOne resp d loc = .ok (some df)) :
    fetch_nasa_data resp d locs = .ok (some (successRecords resp d locs)) ∧
    ∀ loc ∈ locs, ∀ df, fetchOne resp d loc = .ok (some df) →
      ∀ r ∈ df, r ∈ successRecords resp d locs :=
  ⟨fetch_some_of_success resp d locs hsafe hsucc,
    fun loc hloc df hdf => mem_successRecords resp d locs loc hloc df hdf⟩

/-- C1 (witness): in a concrete batch where the first location answers 200
with a well-formed body and the second answers 500, the fetch returns the
records of the successful location. -/
theorem fetch_nonabort_amended_witness :
    fetch_nasa_data respMixed demoDate [goodLoc, badLoc] =
      .ok (some (successRecords respMixed demoDate [goodLoc, badLoc])) := by
  refine (fetch_nonabort_amended respMixed demoDate [goodLoc, badLoc]
    ?_ ?_).1
  · intro loc hloc
    have hc : loc = goodLoc ∨ loc = badLoc := by simpa using hloc
    rcases hc with h | h
    · subst h
      exact ⟨some [⟨goodLoc, "20240101,25.0,60.0,0.5"⟩], rfl⟩
    · subst h
      exact ⟨none, rfl⟩
  · exact ⟨goodLoc, by simp,
      [⟨goodLoc, "20240101,25.0,60.0,0.5"⟩], rfl⟩

/-- C2 (counterexample): when the only location fails with a network
error, fetch_nasa_data does not return the whole-batch-failure value
None: the exception from requests.get is re-raised by future.result and
aborts the call, so the caller never reaches the terminal error branch. -/
theorem batch_network_outage_raises :
    fetch_nasa_data respDown demoDate [goodLoc] =
      .error PyErr.requestException := rfl

/-- C2 (amended): when per-location failures are the absorbed kind (HTTP
non-200), the batch policy of the claim holds: with at least one success
the pipeline proceeds with the successful records and does not raise, and
when every location fails fetch_nasa_data returns None and the caller
takes the terminal error branch, displaying the retrieval-failure message
and performing no merge, scaling or prediction. -/
theorem batch_failure_policy (resp : String → HttpResult) (d : String)
    (locs : List Location)
    (hsafe : ∀ loc ∈ locs, ∃ o, fetchOne resp d loc = .ok o) :
    ((∃ loc ∈ locs, ∃ df, fetchOne resp d loc = .ok (some df)) →
      runFetchStage resp d locs =
        .ok (.proceeded (successRecords resp d locs))) ∧
    ((∀ loc ∈ locs, fetchOne resp d loc = .ok none) →
      fetch_nasa_data resp d locs = .ok none ∧
      runFetchStage resp d locs = .ok (.fetchFailed retrievalFailedMsg) ∧
      ∀ recs, runFetchStage resp d locs ≠ .ok (.proceeded recs)) := by
  constructor
  · intro hsucc
    unfold runFetchStage
    rw [fetch_some_of_success resp d locs hsafe hsucc]
    rfl
  · intro hall
    have hn := fetch_none_of_allfail resp d locs hall
    have hrun : runFetchStage resp d locs =
        .ok (.fetchFailed retrievalFailedMsg) := by
      unfold runFetchStage
      rw [hn]
      rfl
    refine ⟨hn, hrun, fun recs hc => ?_⟩
    rw [hrun] at hc
    simp at hc

/-- C2 (witness): a concrete batch in which both locations answer 500
returns None and the caller displays the terminal retrieval-failure
message. -/
theorem batch_failure_policy_witness :
    runFetchStage respAll500 demoDate [goodLoc, badLoc] =
      .ok (.fetchFailed retrievalFailedMsg) := by
  have h := batch_failure_policy respAll500 demoDate [goodLoc, badLoc]
    (fun loc _ => ⟨none, rfl⟩)
  exact (h.2 (fun loc _ => rfl)).2.1

/-- C7: the fetcher issues exactly one GET per location and date, whose
URL carries parameters=T2M,RH2M,PRECTOTCORR, the latitude and longitude
of the location, start and end both equal to the requested date, the
community RE and format CSV (first conjunct: the URL shape; second
conjunct: the fetch outcome depends only on the response at that one
URL); and on a 200 response whose sentinel line sits at index i the body
is parsed from line i+1 on, as rows tagged with the requesting location
(third conjunct). -/
theorem fetch_request_shape (loc : Location) (d : String) :
    requestURL loc d =
      "https://power.larc.nasa.gov/api/temporal/daily/point?parameters=T2M,RH2M,PRECTOTCORR&latitude="
        ++ loc.lat ++ "&longitude=" ++ loc.lon ++ "&start=" ++ d ++
        "&end=" ++ d ++ "&community=RE&format=CSV" ∧
    (∀ r1 r2 : String → HttpResult,
      r1 (requestURL loc d) = r2 (requestURL loc d) →
      fetchOne r1 d loc = fetchOne r2 d loc) ∧
    (∀ lines : List String, ∀ i : Nat, headerEnd lines = some i →
      fetchOne (fun _ => .response 200 lines) d loc =
        .ok (some ((lines.drop (i + 1)).map (fun r => ⟨loc, r⟩)))) := by
  refine ⟨?_, ?_, ?_⟩
  · unfold requestURL
    rw [show BASE_URL ++ "?parameters=" ++ PARAMETERS ++ "&latitude=" =
      "https://power.larc.nasa.gov/api/temporal/daily/point?parameters=T2M,RH2M,PRECTOTCORR&latitude="
      from rfl]
    rw [String.append_assoc]
    rw [show COMMUNITY ++ "&format=CSV" = "RE&format=CSV" from rfl]
    rw [String.append_assoc]
    rw [show ("&community=" ++ "RE&format=CSV" : String) =
      "&community=RE&format=CSV" from rfl]
  · intro r1 r2 h
    unfold fetchOne
    rw [h]
  · intro lines i hi
    simp [fetchOne, hi]

/-- C7 (witness): a concrete 200 response with the sentinel at index 1 is
parsed into its single data row tagged with the requesting location. -/
theorem fetch_request_shape_witness :
    fetchOne (fun _ => .response 200 goodLines) demoDate goodLoc =
      .ok (some [⟨goodLoc, "20240101,25.0,60.0,0.5"⟩]) := by
  have h := (fetch_request_shape goodLoc demoDate).2.2 goodLines 1 rfl
  exact h.trans (by rfl)

/-- C3: when the fetch result has one entry per key, the left join
produces exactly one merged row per geometry row, in geometry order; each
merged row carries its geometry row unchanged, its climate fields are
the lookup of its (lat, lon) key, and they are populated iff that key has
an entry in the fetch result. -/
theorem merge_left_join_shape (G : List GeomRow)
    (C : List ((String × String) × ClimateRec))
    (hnd : (C.map Prod.fst).Nodup) :
    leftMerge G C = G.map (fun g => ⟨g, lookupKey C (g.lat, g.lon)⟩) ∧
    (leftMerge G C).length = G.length ∧
    ∀ m ∈ leftMerge G C,
      (m.climate.isSome = true ↔
        (m.geom.lat, m.geom.lon) ∈ C.map Prod.fst) := by
  have he := leftMerge_eq G C hnd
  refine ⟨he, by rw [he, List.length_map], ?_⟩
  intro m hm
  rw [he] at hm
  obtain ⟨g, hg, hme⟩ := List.mem_map.mp hm
  rw [← hme]
  simpa using lookupKey_isSome C (g.lat, g.lon)

/-- C3 (witness): joining three concrete geometry rows against two
fetched records gives one row each, the unmatched row with missing
climate fields. -/
theorem merge_left_join_shape_witness :
    (leftMerge G0 C0).length = G0.length ∧
    leftMerge G0 C0 =
      [⟨gRow1, some recA⟩, ⟨gRow2, some recB⟩, ⟨gRow3, none⟩] :=
  ⟨(merge_left_join_shape G0 C0 (by decide)).2.1, by rfl⟩

/-- C4: the reindex to the expected column list is order-insensitive in
its input columns (conjunct 1), outputs the columns exactly in the
expected order (conjunct 2), takes the value of any input column whose
name is expected (conjunct 3), and fills any expected column absent from
the input with 0 (conjunct 4). -/
theorem align_order_invariant (expected : List String)
    (row row' : List (String × ℚ)) (hp : row.Perm row')
    (hnd : (row.map Prod.fst).Nodup) :
    align expected row = align expected row' ∧
    (align expected row).map Prod.fst = expected ∧
    (∀ c v, (c, v) ∈ row → c ∈ expected → (c, v) ∈ align expected row) ∧
    (∀ c ∈ expected, c ∉ row.map Prod.fst →
      (c, (0 : ℚ)) ∈ align expected row) := by
  refine ⟨?_, ?_, ?_, ?_⟩
  · unfold align
    have hfun : (fun c => (c, (lookupKey row c).getD 0)) =
        (fun c => (c, (lookupKey row' c).getD 0)) :=
      funext (fun c => by rw [lookupKey_perm hp hnd c])
    rw [hfun]
  · unfold align
    rw [List.map_map]
    simp [Function.comp_def]
  · intro c v hcv hce
    have hl : lookupKey row c = some v := (lookupKey_eq_some hnd).mpr hcv
    unfold align
    exact List.mem_map.mpr ⟨c, hce, by rw [hl]; rfl⟩
  · intro c hce hcnot
    have hl : lookupKey row c = none := (lookupKey_eq_none row c).mpr hcnot
    unfold align
    exact List.mem_map.mpr ⟨c, hce, by rw [hl]; rfl⟩

/-- C4 (witness): aligning a concrete row and its reversed column order
to a concrete expected list gives the identical aligned row, in the
expected order. -/
theorem align_order_invariant_witness :
    align expected0 row0 = align expected0 row0perm ∧
    align expected0 row0 =
      [("LST", (25 : ℚ)), ("Relative_H", 60), ("Rainfall", 5)] := by
  have hp : row0.Perm row0perm := by decide
  exact ⟨(align_order_invariant expected0 row0 row0perm hp (by decide)).1,
    by rfl⟩

/-- C5 (counterexample): on a merged frame lacking the LST column, the
backup variant does stop, but its message is the fixed string that names
none of the missing columns — refuting the claim that the pipeline stops
with an explicit message naming the missing columns. -/
theorem backup_message_not_naming_columns :
    backupFeatureStage presentNoLST = .stopWithError backupMissingMsg ∧
    containsSub backupMissingMsg "LST" = false ∧
    containsSub backupMissingMsg "Rainfall" = false ∧
    containsSub backupMissingMsg "Relative_H" = false := by decide

/-- C5 (amended): if any required semantic column is absent from the
merged frame, the pipeline never reaches scaling or prediction: the
backup variant stops with its fixed error message (which does not name
the missing columns) and the active page dies on an uncaught KeyError
instead of a displayed message. -/
theorem feature_schema_stop_amended (present : List String)
    (h : ∃ f ∈ features, f ∉ present) :
    backupFeatureStage present = .stopWithError backupMissingMsg ∧
    backupFeatureStage present ≠ .okProceed ∧
    (∃ m, activeFeatureStage present = .uncaught m) ∧
    activeFeatureStage present ≠ .okProceed := by
  obtain ⟨f, hf, hfp⟩ := h
  have hall : features.all (fun g => present.contains g) = false :=
    List.all_eq_false.mpr ⟨f, hf, by simpa using hfp⟩
  have hmiss : missingFeatures present ≠ [] := by
    intro hnil
    have h2 := List.filter_eq_nil_iff.mp hnil f hf
    simp at h2
    exact hfp h2
  have hb : backupFeatureStage present = .stopWithError backupMissingMsg := by
    unfold backupFeatureStage
    rw [if_neg (by rw [hall]; simp)]
  have ha : activeFeatureStage present =
      .uncaught (keyErrorMsg (missingFeatures present)) := by
    unfold activeFeatureStage
    rw [if_neg (by simpa [List.isEmpty_iff] using hmiss)]
  refine ⟨hb, by rw [hb]; simp, ⟨_, ha⟩, by rw [ha]; simp⟩

/-- C5 (witness): on the concrete merged frame lacking LST, both variants
refuse to proceed to scaling or prediction. -/
theorem feature_schema_stop_witness :
    backupFeatureStage presentNoLST = .stopWithError backupMissingMsg ∧
    activeFeatureStage presentNoLST ≠ .okProceed := by
  have h := feature_schema_stop_amended presentNoLST
    ⟨"LST", by decide, by decide⟩
  exact ⟨h.1, h.2.2.2⟩

/-- C6: the mapping from (lat, lon) to climate values is the same under
any completion/append order of the per-location results: for any
permutation of a fetched frame with one entry per key, every key looks up
to the same record, and the merge of any geometry frame is unchanged. -/
theorem aggregation_order_irrelevant
    (C C' : List ((String × String) × ClimateRec)) (hp : C.Perm C')
    (hnd : (C.map Prod.fst).Nodup) :
    (∀ k, lookupKey C k = lookupKey C' k) ∧
    ∀ G, leftMerge G C = leftMerge G C' := by
  have hnd' : (C'.map Prod.fst).Nodup := ((hp.map Prod.fst).nodup_iff).mp hnd
  have hl : ∀ k, lookupKey C k = lookupKey C' k := lookupKey_perm hp hnd
  refine ⟨hl, fun G => ?_⟩
  rw [leftMerge_eq G C hnd, leftMerge_eq G C' hnd']
  have hfun : (fun g : GeomRow =>
      (⟨g, lookupKey C (g.lat, g.lon)⟩ : MergedRow)) =
      (fun g => ⟨g, lookupKey C' (g.lat, g.lon)⟩) :=
    funext (fun g => by rw [hl])
  rw [hfun]

/-- C6 (witness): merging against the concrete fetched frame and against
the same frame with its rows in the opposite completion order gives the
identical merged frame. -/
theorem aggregation_order_irrelevant_witness :
    leftMerge G0 C0 = leftMerge G0 C0swapped := by
  have hp : C0.Perm C0swapped := by
    unfold C0 C0swapped
    exact List.Perm.swap _ _ _
  exact (aggregation_order_irrelevant C0 C0swapped hp (by decide)).2 G0

/-- C8: both configured gap-fill steps are the identity on complete data:
on a feature frame with no missing value, the zero fill of the active
page and the mean fill of the backup variant leave every value
unchanged. -/
theorem gapfill_idempotent (rs : List ClimateRec)
    (h : ∀ r ∈ rs, recComplete r = true) :
    fillZeroTable rs = rs ∧ fillMeanTable rs = rs :=
  ⟨fillZeroTable_id rs h, fillMeanTable_id rs h⟩

/-- C8 (witness): both fills leave the concrete complete feature frame
unchanged. -/
theorem gapfill_idempotent_witness :
    fillZeroTable completeTable = completeTable ∧
    fillMeanTable completeTable = completeTable :=
  gapfill_idempotent completeTable (by decide)

/-- C9: invariant of the active pipeline — every entry of the feature
matrix handed to scaler.transform is a total rational (no missing entry
by construction) that is either exactly 0 (introduced by the zero fill,
the reindex fill value, or a 0 climate value) or a value of a fetched
climate record. -/
theorem active_matrix_grounded (expected : List String) (G : List GeomRow)
    (C : List ((String × String) × ClimateRec)) :
    ∀ rowA ∈ activePipeline expected (leftMerge G C), ∀ cv ∈ rowA,
      cv.2 = 0 ∨ ∃ k rec, (k, rec) ∈ C ∧
        (rec.rainfall = some cv.2 ∨ rec.lst = some cv.2 ∨
          rec.relH = some cv.2) := by
  intro rowA hrow cv hcv
  simp only [activePipeline, fillZeroTable, List.map_map] at hrow
  obtain ⟨m, hm, hrow⟩ := List.mem_map.mp hrow
  rw [← hrow] at hcv
  simp only [Function.comp] at hcv
  unfold align at hcv
  obtain ⟨c, hc, hcve⟩ := List.mem_map.mp hcv
  have hval : cv.2 =
      (lookupKey (assocOf (fillZero (featRow m))) c).getD 0 := by
    rw [← hcve]
  cases hl : lookupKey (assocOf (fillZero (featRow m))) c with
  | none =>
    left
    rw [hval, hl]
    rfl
  | some w =>
    obtain ⟨x, hfind, hx2⟩ := Option.map_eq_some'.mp hl
    have hxmem := List.mem_of_find?_eq_some hfind
    have hw : w = ((featRow m).rainfall).getD 0 ∨
        w = ((featRow m).lst).getD 0 ∨ w = ((featRow m).relH).getD 0 := by
      simp only [assocOf, fillZero, List.mem_cons, List.mem_singleton,
        List.not_mem_nil, or_false] at hxmem
      rcases hxmem with h | h | h <;>
        rw [← hx2, h] <;> simp
    have hcw : cv.2 = w := by rw [hval, hl]; rfl
    rcases hw with h | h | h
    · have := field_grounded hm ((featRow m).rainfall) (Or.inl rfl)
      rw [hcw, h]
      exact this
    · have := field_grounded hm ((featRow m).lst) (Or.inr (Or.inl rfl))
      rw [hcw, h]
      exact this
    · have := field_grounded hm ((featRow m).relH) (Or.inr (Or.inr rfl))
      rw [hcw, h]
      exact this

/-- C9 (witness): a concrete entry of the concrete active feature matrix
is a fetched climate value (or zero). -/
theorem active_matrix_grounded_witness :
    (25 : ℚ) = 0 ∨ ∃ k rec, (k, rec) ∈ C0 ∧
      (rec.rainfall = some 25 ∨ rec.lst = some 25 ∨
        rec.relH = some 25) := by
  have h := active_matrix_grounded expected0 G0 C0
    [("LST", (25 : ℚ)), ("Relative_H", 60), ("Rainfall", 5)]
    (by decide) ("LST", (25 : ℚ)) (by decide)
  exact h

/-- C10: the two pipeline variants compute equal aligned feature
matrices, and hence equal predictions under any model function, on every
merged input whose climate values have no gap (both fills are then the
identity). -/
theorem variants_agree_complete (expected : List String)
    (ms : List MergedRow)
    (h : ∀ m ∈ ms, recComplete (featRow m) = true) :
    activePipeline expected ms = backupPipeline expected ms ∧
    ∀ predict : List (List (String × ℚ)) → List ℤ,
      predict (activePipeline expected ms) =
        predict (backupPipeline expected ms) := by
  have hrows : ∀ r ∈ ms.map featRow, recComplete r = true := by
    intro r hr
    obtain ⟨m, hm, hrm⟩ := List.mem_map.mp hr
    rw [← hrm]
    exact h m hm
  have he : activePipeline expected ms = backupPipeline expected ms := by
    unfold activePipeline backupPipeline
    rw [fillZeroTable_id _ hrows, fillMeanTable_id _ hrows]
  exact ⟨he, fun predict => by rw [he]⟩

/-- C10 (witness): on a concrete gap-free merged frame the two variants
produce the identical aligned feature matrix. -/
theorem variants_agree_complete_witness :
    activePipeline expected0 mergedComplete =
      backupPipeline expected0 mergedComplete :=
  (variants_agree_complete expected0 mergedComplete (by decide)).1

end MalariaPipeline
